import Mathlib

/-!
Verification of the autopilot flight-mode state machine
(src/control/autopilot/src/autopilot.cpp of rpg_quadrotor_control).

The C++ class AutoPilot is embedded shallowly: its member variables become
fields of `AutoPilotState`, each ROS callback becomes a pure function from
the old state (plus the message and the current wall-clock time, passed
explicitly) to the new state together with the command it publishes, and the
fixed ROS parameters become a `Params` record.  Doubles are modelled as
rationals.  The external collaborators (the base controller
`base_controller_.run`, the Euler-angle conversion
`quaternionToEulerAnglesZYX(...).z()`, and the state predictor) are not part
of this source file; they are passed in as an `Env` of arbitrary functions,
and the predicted state used by the control loop is an explicit input of the
tick.  Logging calls are modelled, where a claim needs them, as a returned
list of log entries.
-/

namespace Autopilot

/-- The `States` enum of autopilot.h (the 12 flight modes). -/
inductive States
  | OFF
  | START
  | HOVER
  | LAND
  | EMERGENCY_LAND
  | BREAKING
  | GO_TO_POSE
  | VELOCITY_CONTROL
  | REFERENCE_CONTROL
  | TRAJECTORY_CONTROL
  | COMMAND_FEEDTHROUGH
  | RC_MANUAL
deriving DecidableEq

/-- Modelled from the spec: the control-mode tag of a ControlCommand
("None/BodyRates/…"); quadrotor_common is outside src/.  `NONE` is the
sentinel meaning "do not publish". -/
inductive ControlMode
  | NONE
  | ATTITUDE
  | BODY_RATES
deriving DecidableEq

/-- Modelled from the spec: the coordinate-frame tag of a state estimate
("World, Optitrack, Vision, Local, Unknown"); quadrotor_common is outside
src/.  `INVALID` is the code name used for the Unknown frame of the spec. -/
inductive CoordinateFrame
  | INVALID
  | WORLD
  | OPTITRACK
  | VISION
  | LOCAL
deriving DecidableEq

/-- A 3d vector of (rational-modelled) doubles. -/
structure Vec3 where
  x : Rat
  y : Rat
  z : Rat
deriving DecidableEq

def Vec3.zero : Vec3 := { x := 0, y := 0, z := 0 }

/-- A quaternion (kept abstract: only the `Env` ever inspects it). -/
structure Quat where
  w : Rat
  x : Rat
  y : Rat
  z : Rat
deriving DecidableEq

/-- Modelled from the spec: quadrotor_common QuadStateEstimate (outside
src/) — "position (3D), orientation (unit quaternion), velocity, a validity
flag, and a coordinate-frame tag".  The `valid` field is the value the
external `isValid()` returns for this estimate. -/
structure QuadStateEstimate where
  position : Vec3
  orientation : Quat
  velocity : Vec3
  coordinate_frame : CoordinateFrame
  valid : Bool
deriving DecidableEq

/-- Modelled from the spec: quadrotor_common TrajectoryPoint (outside
src/) — "target position, velocity, heading (yaw scalar)". -/
structure TrajectoryPoint where
  position : Vec3
  velocity : Vec3
  heading : Rat
deriving DecidableEq

/-- Modelled from the spec: a freshly constructed TrajectoryPoint
(`quadrotor_common::TrajectoryPoint()`) is all zeros. -/
def TrajectoryPoint.mkDefault : TrajectoryPoint :=
  { position := Vec3.zero, velocity := Vec3.zero, heading := 0 }

/-- Modelled from the spec: quadrotor_common ControlCommand (outside
src/) — "control mode tag, armed flag, angular-rate setpoint, collective
thrust scalar, timestamp, expected-execution timestamp".  Only the fields
autopilot.cpp touches are modelled. -/
structure ControlCommand where
  control_mode : ControlMode
  armed : Bool
  bodyrates : Vec3
  collective_thrust : Rat
  timestamp : Rat
  expected_execution_time : Rat
deriving DecidableEq

/-- Modelled from the spec: a default-constructed ControlCommand carries the
`NONE` sentinel control mode ("a None-mode command is a sentinel meaning do
not publish") and zeroed numeric fields. -/
def ControlCommand.mkDefault : ControlCommand :=
  { control_mode := ControlMode.NONE, armed := false, bodyrates := Vec3.zero,
    collective_thrust := 0, timestamp := 0, expected_execution_time := 0 }

/-- Modelled from the spec: `ControlCommand::zero()` (outside src/) makes a
"fully zeroed/disarmed command"; it is publishable (the Off tick publishes
it every tick), so its control mode is BODY_RATES, not the NONE sentinel. -/
def ControlCommand.zero (c : ControlCommand) : ControlCommand :=
  { c with control_mode := ControlMode.BODY_RATES, armed := false,
           bodyrates := Vec3.zero, collective_thrust := 0 }

/-- The ROS parameters loaded by `loadParameters` that the control logic
reads (`velocity_estimate_in_world_frame` is loaded but never used). -/
structure Params where
  control_command_delay : Rat
  optitrack_land_drop_height : Rat
  optitrack_start_land_timeout : Rat
  optitrack_start_height : Rat
  start_idle_duration : Rat
  idle_thrust : Rat
  start_land_velocity : Rat
  propeller_ramp_down_timeout : Rat

/-- The external collaborators used by the callbacks: `run` is
`base_controller_.run` with `base_controller_params_` applied, and
`quatToHeading` is `quaternionToEulerAnglesZYX(q).z()`. -/
structure Env where
  run : QuadStateEstimate → TrajectoryPoint → ControlCommand
  quatToHeading : Quat → Rat

/-- The member variables of the AutoPilot class (the state predictor and the
ROS handles are external and carry no logic of this file). -/
structure AutoPilotState where
  autopilot_state : States
  state_before_rc_manual_flight : States
  reference_state : TrajectoryPoint
  received_state_est : QuadStateEstimate
  state_estimate_available : Bool
  time_of_switch_to_current_state : Rat
  first_time_in_new_state : Bool
  initial_start_position : Vec3
  initial_land_position : Vec3
  initial_drop_thrust : Rat
  time_to_ramp_down : Bool
  time_started_ramping_down : Rat
deriving DecidableEq

/-- Embeds `AutoPilot::setAutoPilotState` (autopilot.cpp lines 418-429). -/
def setAutoPilotState (now : Rat) (s : AutoPilotState) (new_state : States) :
    AutoPilotState :=
  { s with
    time_of_switch_to_current_state := now,
    first_time_in_new_state := true,
    state_before_rc_manual_flight :=
      if new_state = States.RC_MANUAL then States.OFF
      else s.state_before_rc_manual_flight,
    autopilot_state := new_state }

/-- Embeds `AutoPilot::timeInCurrentState` (lines 431-434). -/
def timeInCurrentState (now : Rat) (s : AutoPilotState) : Rat :=
  now - s.time_of_switch_to_current_state

/-- Embeds `AutoPilot::publishControlCommand` (lines 442-461): a NONE-mode command
is rejected; otherwise the command is transmitted (also pushed into the
external predictor queue, not modelled) and its thrust is saved as
`initial_drop_thrust_`. -/
def publishControlCommand (s : AutoPilotState) (control_cmd : ControlCommand) :
    AutoPilotState × Option ControlCommand :=
  if control_cmd.control_mode = ControlMode.NONE then
    (s, none)
  else
    ({ s with initial_drop_thrust := control_cmd.collective_thrust },
     some control_cmd)

/-- Embeds `AutoPilot::start` (lines 297-345). -/
def start (p : Params) (env : Env) (now : Rat) (s0 : AutoPilotState)
    (state_estimate : QuadStateEstimate) : AutoPilotState × ControlCommand :=
  let s1 :=
    if s0.first_time_in_new_state then
      let sa := { s0 with
        first_time_in_new_state := false,
        initial_start_position := state_estimate.position,
        reference_state :=
          { TrajectoryPoint.mkDefault with
            position := state_estimate.position,
            heading := env.quatToHeading state_estimate.orientation } }
      if state_estimate.position.z ≥ p.optitrack_land_drop_height then
        setAutoPilotState now sa States.HOVER
      else sa
    else s0
  if timeInCurrentState now s1 > p.optitrack_start_land_timeout ∨
     s1.reference_state.position.z ≥ p.optitrack_start_height then
    let s2 := setAutoPilotState now s1 States.HOVER
    (s2, env.run state_estimate s2.reference_state)
  else
    if timeInCurrentState now s1 < p.start_idle_duration then
      (s1, { ControlCommand.mkDefault with
             control_mode := ControlMode.BODY_RATES,
             armed := true,
             bodyrates := Vec3.zero,
             collective_thrust := p.idle_thrust })
    else
      let s2 := { s1 with reference_state :=
        { s1.reference_state with
          position := { s1.reference_state.position with
            z := s1.initial_start_position.z
                 + p.start_land_velocity
                   * (timeInCurrentState now s1 - p.start_idle_duration) },
          velocity := { s1.reference_state.velocity with
            z := p.start_land_velocity } } }
      (s2, env.run state_estimate s2.reference_state)

/-- Embeds `AutoPilot::hover` (lines 347-363). -/
def hover (env : Env) (s0 : AutoPilotState)
    (state_estimate : QuadStateEstimate) : AutoPilotState × ControlCommand :=
  let s1 :=
    if s0.first_time_in_new_state then
      { s0 with
        first_time_in_new_state := false,
        reference_state :=
          { TrajectoryPoint.mkDefault with
            position := state_estimate.position,
            heading := env.quatToHeading state_estimate.orientation } }
    else s0
  (s1, env.run state_estimate s1.reference_state)

/-- Embeds `AutoPilot::land` (lines 365-416). -/
def land (p : Params) (env : Env) (now : Rat) (s0 : AutoPilotState)
    (state_estimate : QuadStateEstimate) : AutoPilotState × ControlCommand :=
  let s1 :=
    if s0.first_time_in_new_state then
      { s0 with
        first_time_in_new_state := false,
        initial_land_position := state_estimate.position,
        reference_state :=
          { TrajectoryPoint.mkDefault with
            position := state_estimate.position,
            heading := env.quatToHeading state_estimate.orientation },
        time_to_ramp_down := false }
    else s0
  let s2 := { s1 with reference_state :=
    { s1.reference_state with
      position := { s1.reference_state.position with
        z := max 0 (s1.initial_land_position.z
             - p.start_land_velocity * timeInCurrentState now s1) },
      velocity := { s1.reference_state.velocity with
        z := - p.start_land_velocity } } }
  let command0 := env.run state_estimate s2.reference_state
  let s3 :=
    if s2.time_to_ramp_down = false ∧
       (state_estimate.position.z < p.optitrack_land_drop_height ∨
        timeInCurrentState now s2 > p.optitrack_start_land_timeout) then
      { s2 with time_to_ramp_down := true, time_started_ramping_down := now }
    else s2
  let command1 :=
    if s3.time_to_ramp_down then
      { command0 with collective_thrust :=
          s3.initial_drop_thrust
          - s3.initial_drop_thrust / p.propeller_ramp_down_timeout
            * (now - s3.time_started_ramping_down) }
    else command0
  if command1.collective_thrust ≤ 0 then
    (setAutoPilotState now s3 States.OFF, ControlCommand.zero command1)
  else (s3, command1)

/-- The mode dispatch switch of `AutoPilot::stateEstimateCallback` (lines
94-137): computes the control command for the current mode (returning the
possibly mode-switched state alongside it). -/
def controlFor (p : Params) (env : Env) (now : Rat) (s2 : AutoPilotState)
    (predicted : QuadStateEstimate) : AutoPilotState × ControlCommand :=
  match s2.autopilot_state with
  | States.OFF => (s2, ControlCommand.zero ControlCommand.mkDefault)
  | States.START => start p env now s2 predicted
  | States.HOVER => hover env s2 predicted
  | States.LAND => land p env now s2 predicted
  | States.EMERGENCY_LAND =>
      (if s2.state_estimate_available then
         setAutoPilotState now s2 States.HOVER
       else s2,
       ControlCommand.mkDefault)
  | States.BREAKING => (s2, ControlCommand.mkDefault)
  | States.GO_TO_POSE => (s2, ControlCommand.mkDefault)
  | States.VELOCITY_CONTROL => (s2, ControlCommand.mkDefault)
  | States.REFERENCE_CONTROL => (s2, ControlCommand.mkDefault)
  | States.TRAJECTORY_CONTROL => (s2, ControlCommand.mkDefault)
  | States.COMMAND_FEEDTHROUGH => (s2, ControlCommand.mkDefault)
  | States.RC_MANUAL =>
      (s2, { ControlCommand.zero ControlCommand.mkDefault with
             armed := true, collective_thrust := 981/100 })

/-- Embeds `AutoPilot::stateEstimateCallback` (lines 63-145), the periodic tick.
`msg` is the received estimate (already converted, with its external
`isValid()` result in the `valid` field) and `predicted` is the output of
the external predictor at the command execution time.  The returned option
is the command published this tick, if any. -/
def stateEstimateCallback (p : Params) (env : Env) (now : Rat)
    (s0 : AutoPilotState) (msg predicted : QuadStateEstimate) :
    AutoPilotState × Option ControlCommand :=
  let s1 := { s0 with state_estimate_available := true,
                      received_state_est := msg }
  let s2 :=
    if msg.valid = false then
      let sa := { s1 with state_estimate_available := false }
      if sa.autopilot_state ≠ States.OFF ∧
         sa.autopilot_state ≠ States.EMERGENCY_LAND then
        setAutoPilotState now sa States.EMERGENCY_LAND
      else sa
    else s1
  let command_execution_time := now + p.control_command_delay
  let step := controlFor p env now s2 predicted
  if step.1.autopilot_state ≠ States.COMMAND_FEEDTHROUGH then
    publishControlCommand step.1
      { step.2 with timestamp := now,
                    expected_execution_time := command_execution_time }
  else (step.1, none)

/-- Embeds `AutoPilot::lowLevelFeedbackCallback` (lines 147-167).  The argument is
whether `msg->control_mode == msg->RC_MANUAL`. -/
def lowLevelFeedbackCallback (s0 : AutoPilotState)
    (feedback_is_rc_manual : Bool) : AutoPilotState :=
  let s1 :=
    if feedback_is_rc_manual = true ∧
       s0.autopilot_state ≠ States.RC_MANUAL then
      { s0 with autopilot_state := States.RC_MANUAL }
    else s0
  if feedback_is_rc_manual = false ∧
     s1.autopilot_state = States.RC_MANUAL then
    if s1.state_before_rc_manual_flight = States.OFF then
      { s1 with autopilot_state := States.OFF }
    else
      { s1 with autopilot_state := States.BREAKING }
  else s1

/-- Embeds `AutoPilot::controlCommandInputCallback` (lines 191-206).  The returned
option is what `control_command_pub_` publishes (it publishes the raw
message directly, not through `publishControlCommand`). -/
def controlCommandInputCallback (s0 : AutoPilotState) (msg : ControlCommand) :
    AutoPilotState × Option ControlCommand :=
  if s0.autopilot_state ≠ States.OFF ∧ s0.autopilot_state ≠ States.HOVER then
    (s0, none)
  else
    let s1 :=
      if s0.autopilot_state ≠ States.COMMAND_FEEDTHROUGH then
        { s0 with autopilot_state := States.COMMAND_FEEDTHROUGH }
      else s0
    (s1, some msg)

/-- Severity of a ROS log call. -/
inductive LogLevel
  | info
  | warn
  | error
deriving DecidableEq

/-- Embeds `AutoPilot::startCallback` (lines 208-247), with its log calls returned
(the throttled "command received" info is modelled as always emitted). -/
def startCallback (now : Rat) (s : AutoPilotState) :
    AutoPilotState × List (LogLevel × String) :=
  let received := (LogLevel.info, "START command received")
  if s.autopilot_state = States.OFF then
    if s.state_estimate_available then
      if s.received_state_est.coordinate_frame = CoordinateFrame.WORLD ∨
         s.received_state_est.coordinate_frame = CoordinateFrame.OPTITRACK then
        (setAutoPilotState now s States.START,
         [received,
          (LogLevel.info,
           "Absolute state estimate available, taking off based on it")])
      else
        if s.received_state_est.coordinate_frame = CoordinateFrame.VISION ∨
           s.received_state_est.coordinate_frame = CoordinateFrame.LOCAL then
          (setAutoPilotState now s States.HOVER,
           [received,
            (LogLevel.info,
             "Relative state estimate available, switch to hover")])
        else (s, [received])
    else
      (s, [received,
           (LogLevel.error, "No state estimate available, will not start")])
  else
    (s, [received,
         (LogLevel.warn, "Autopilot is not OFF, will not switch to START")])

/-- Embeds `AutoPilot::landCallback` (lines 249-283), with its log calls. -/
def landCallback (now : Rat) (s : AutoPilotState) :
    AutoPilotState × List (LogLevel × String) :=
  let received := (LogLevel.info, "LAND command received")
  if s.autopilot_state = States.OFF ∨ s.autopilot_state = States.LAND ∨
     s.autopilot_state = States.EMERGENCY_LAND ∨
     s.autopilot_state = States.COMMAND_FEEDTHROUGH ∨
     s.autopilot_state = States.RC_MANUAL then
    (s, [received])
  else
    if s.state_estimate_available then
      if s.received_state_est.coordinate_frame = CoordinateFrame.WORLD ∨
         s.received_state_est.coordinate_frame = CoordinateFrame.OPTITRACK then
        (setAutoPilotState now s States.LAND,
         [received,
          (LogLevel.info,
           "Absolute state estimate available, landing based on it")])
      else
        (setAutoPilotState now s States.EMERGENCY_LAND,
         [received,
          (LogLevel.info,
           "No absolute state estimate available, EMERGENCY_LAND instead")])
    else
      (setAutoPilotState now s States.EMERGENCY_LAND, [received])

/-- Embeds `AutoPilot::offCallback` (lines 285-295). -/
def offCallback (now : Rat) (s : AutoPilotState) : AutoPilotState :=
  if s.autopilot_state ≠ States.OFF then
    let s1 := setAutoPilotState now s States.OFF
    { s1 with state_before_rc_manual_flight := States.OFF }
  else s

/-- The inputs of one periodic tick: the wall time, the external
collaborators, the received estimate and the predicted estimate. -/
structure TickIn where
  now : Rat
  env : Env
  msg : QuadStateEstimate
  predicted : QuadStateEstimate

/-- A sequence of periodic ticks, collecting the published commands. -/
def runTicks (p : Params) : AutoPilotState → List TickIn →
    AutoPilotState × List (Option ControlCommand)
  | s, [] => (s, [])
  | s, i :: rest =>
    let r := stateEstimateCallback p i.env i.now s i.msg i.predicted
    let t := runTicks p r.1 rest
    (t.1, r.2 :: t.2)

/-- The states reachable from the constructor initialization (lines
10-14: mode Off, pre-manual memory Off, first-time latch set, ramp-down
latch clear; the remaining members are left uninitialized by the
constructor, so they are unconstrained) under the six state-mutating
handlers, with arbitrary times, messages and external collaborators. -/
inductive Reachable (p : Params) : AutoPilotState → Prop
  | init (s : AutoPilotState)
      (h1 : s.autopilot_state = States.OFF)
      (h2 : s.state_before_rc_manual_flight = States.OFF)
      (h3 : s.first_time_in_new_state = true)
      (h4 : s.time_to_ramp_down = false) : Reachable p s
  | tick (s : AutoPilotState) (env : Env) (now : Rat)
      (msg predicted : QuadStateEstimate) :
      Reachable p s →
      Reachable p (stateEstimateCallback p env now s msg predicted).1
  | feedback (s : AutoPilotState) (b : Bool) :
      Reachable p s → Reachable p (lowLevelFeedbackCallback s b)
  | extCommand (s : AutoPilotState) (msg : ControlCommand) :
      Reachable p s → Reachable p (controlCommandInputCallback s msg).1
  | startReq (s : AutoPilotState) (now : Rat) :
      Reachable p s → Reachable p (startCallback now s).1
  | landReq (s : AutoPilotState) (now : Rat) :
      Reachable p s → Reachable p (landCallback now s).1
  | offReq (s : AutoPilotState) (now : Rat) :
      Reachable p s → Reachable p (offCallback now s)

/-! Concrete values used by the witnesses and counterexamples. -/

/-- Concrete parameter values. -/
def pW : Params :=
  { control_command_delay := 0, optitrack_land_drop_height := 1,
    optitrack_start_land_timeout := 100, optitrack_start_height := 3,
    start_idle_duration := 1, idle_thrust := 2, start_land_velocity := 0,
    propeller_ramp_down_timeout := 1 }

/-- A concrete environment: a base controller returning a fixed armed
body-rates command of thrust 5, and a zero heading extraction. -/
def envW : Env :=
  { run := fun _ _ => { ControlCommand.mkDefault with
      control_mode := ControlMode.BODY_RATES, armed := true,
      collective_thrust := 5 },
    quatToHeading := fun _ => 0 }

def qW : Quat := { w := 1, x := 0, y := 0, z := 0 }

/-- A valid absolute-frame estimate at the origin. -/
def estWorld : QuadStateEstimate :=
  { position := Vec3.zero, orientation := qW, velocity := Vec3.zero,
    coordinate_frame := CoordinateFrame.WORLD, valid := true }

def estVision : QuadStateEstimate :=
  { estWorld with coordinate_frame := CoordinateFrame.VISION }

def estUnknownFrame : QuadStateEstimate :=
  { estWorld with coordinate_frame := CoordinateFrame.INVALID }

def estInvalid : QuadStateEstimate := { estWorld with valid := false }

/-- A concrete base state: mode Off, valid absolute estimate available. -/
def sOffW : AutoPilotState :=
  { autopilot_state := States.OFF,
    state_before_rc_manual_flight := States.OFF,
    reference_state := TrajectoryPoint.mkDefault,
    received_state_est := estWorld,
    state_estimate_available := true,
    time_of_switch_to_current_state := 0,
    first_time_in_new_state := true,
    initial_start_position := Vec3.zero,
    initial_land_position := Vec3.zero,
    initial_drop_thrust := 0,
    time_to_ramp_down := false,
    time_started_ramping_down := 0 }

def sHoverW : AutoPilotState :=
  { sOffW with autopilot_state := States.HOVER }

def sFtW : AutoPilotState :=
  { sOffW with autopilot_state := States.COMMAND_FEEDTHROUGH,
               first_time_in_new_state := false }

/-- Mode Off with the latch already consumed and a nonzero switch time. -/
def sC2W : AutoPilotState :=
  { sOffW with first_time_in_new_state := false,
               time_of_switch_to_current_state := 5 }

/-- Mode Off with an Unknown-frame estimate available. -/
def sC10W : AutoPilotState :=
  { sOffW with received_state_est := estUnknownFrame }

/-- In Land, past the first tick, ramp-down not yet latched, last issued
thrust 1. -/
def sLandW : AutoPilotState :=
  { sOffW with autopilot_state := States.LAND,
               first_time_in_new_state := false,
               initial_drop_thrust := 1 }

/-- In Land, past the first tick, ramp-down latched at time 0, last issued
thrust 1. -/
def sLandLatchedW : AutoPilotState :=
  { sLandW with time_to_ramp_down := true, time_started_ramping_down := 0 }

/-- An arbitrary concrete publishable external command. -/
def cmdW : ControlCommand :=
  { control_mode := ControlMode.BODY_RATES, armed := true,
    bodyrates := Vec3.zero, collective_thrust := 7, timestamp := 3,
    expected_execution_time := 4 }

/-- A concrete tick input with a valid World-frame estimate, at time t. -/
def tickInAt (t : Rat) : TickIn :=
  { now := t, env := envW, msg := estWorld, predicted := estWorld }

/-! Theorems. -/

/-- Claim C1, counterexample: with the autopilot already in
CommandFeedthrough, a further external command is NOT accepted: the handler
leaves the state unchanged and publishes nothing, contradicting the claim
that a command arriving in mode CommandFeedthrough is still accepted and
published. -/
theorem c1_counterexample :
    controlCommandInputCallback sFtW cmdW = (sFtW, none) ∧
    (controlCommandInputCallback sFtW cmdW).2 ≠ some cmdW := by
  constructor
  · rfl
  · decide

/-- Claim C1, amended: the external-command handler accepts exactly when the
current mode is Off or Hover; on acceptance it sets the mode to
CommandFeedthrough (changing nothing else) and publishes the command
verbatim, bypassing the reference generator, the base controller and the
periodic tick publish path; in any other mode (including CommandFeedthrough
itself) the command is dropped and the state unchanged. -/
theorem c1_amended (s : AutoPilotState) (msg : ControlCommand) :
    ((s.autopilot_state = States.OFF ∨ s.autopilot_state = States.HOVER) →
      controlCommandInputCallback s msg =
        ({ s with autopilot_state := States.COMMAND_FEEDTHROUGH }, some msg)) ∧
    ((s.autopilot_state ≠ States.OFF ∧ s.autopilot_state ≠ States.HOVER) →
      controlCommandInputCallback s msg = (s, none)) := by
  constructor
  · intro h
    rcases h with h | h <;> simp [controlCommandInputCallback, h]
  · intro h
    simp [controlCommandInputCallback, h.1, h.2]

/-- Witness for the amended C1 at a concrete accepted input. -/
theorem c1_amended_witness :
    controlCommandInputCallback sOffW cmdW =
      ({ sOffW with autopilot_state := States.COMMAND_FEEDTHROUGH },
       some cmdW) :=
  (c1_amended sOffW cmdW).1 (Or.inl rfl)

/-- Claim C2, counterexample: the low-level feedback handler writes the mode
from Off to RcManual while leaving the first-time latch false and the
switch timestamp untouched, so a mode change does happen without the
latch/timestamp reset. -/
theorem c2_counterexample :
    sC2W.autopilot_state = States.OFF ∧
    (lowLevelFeedbackCallback sC2W true).autopilot_state =
      States.RC_MANUAL ∧
    (lowLevelFeedbackCallback sC2W true).first_time_in_new_state = false ∧
    (lowLevelFeedbackCallback sC2W true).time_of_switch_to_current_state =
      5 := by
  decide

/-- Claim C2, amended: every mode write performed through
`setAutoPilotState` sets the first-time latch to true and the switch
timestamp to the current time in the same step; but the low-level feedback
handler and the external-command handler write the mode directly, leaving
the latch and the timestamp unchanged. -/
theorem c2_amended (now : Rat) (s : AutoPilotState) (new_state : States)
    (b : Bool) (msg : ControlCommand) :
    ((setAutoPilotState now s new_state).first_time_in_new_state = true ∧
     (setAutoPilotState now s new_state).time_of_switch_to_current_state =
       now ∧
     (setAutoPilotState now s new_state).autopilot_state = new_state) ∧
    ((lowLevelFeedbackCallback s b).first_time_in_new_state =
       s.first_time_in_new_state ∧
     (lowLevelFeedbackCallback s b).time_of_switch_to_current_state =
       s.time_of_switch_to_current_state) ∧
    ((controlCommandInputCallback s msg).1.first_time_in_new_state =
       s.first_time_in_new_state ∧
     (controlCommandInputCallback s msg).1.time_of_switch_to_current_state =
       s.time_of_switch_to_current_state) := by
  refine ⟨⟨rfl, rfl, rfl⟩, ?_, ?_⟩
  · unfold lowLevelFeedbackCallback
    dsimp only
    split_ifs <;> exact ⟨rfl, rfl⟩
  · unfold controlCommandInputCallback
    dsimp only
    split_ifs <;> exact ⟨rfl, rfl⟩

/-- Claim C6: the start-request handler rejects (state unchanged) when the
mode is not Off or no estimate is available; from Off with an available
World/Optitrack estimate it switches to Start; from Off with an available
Vision/Local estimate it switches to Hover. -/
theorem c6_start_request (now : Rat) (s : AutoPilotState) :
    ((s.autopilot_state ≠ States.OFF ∨ s.state_estimate_available = false) →
      (startCallback now s).1 = s) ∧
    (s.autopilot_state = States.OFF → s.state_estimate_available = true →
      (s.received_state_est.coordinate_frame = CoordinateFrame.WORLD ∨
       s.received_state_est.coordinate_frame = CoordinateFrame.OPTITRACK) →
      (startCallback now s).1.autopilot_state = States.START) ∧
    (s.autopilot_state = States.OFF → s.state_estimate_available = true →
      (s.received_state_est.coordinate_frame = CoordinateFrame.VISION ∨
       s.received_state_est.coordinate_frame = CoordinateFrame.LOCAL) →
      (startCallback now s).1.autopilot_state = States.HOVER) := by
  refine ⟨?_, ?_, ?_⟩
  · intro h
    by_cases hm : s.autopilot_state = States.OFF
    · rcases h with h | h
      · exact absurd hm h
      · simp [startCallback, hm, h]
    · simp [startCallback, hm]
  · intro hm ha hf
    rcases hf with hf | hf <;>
      simp [startCallback, hm, ha, hf, setAutoPilotState]
  · intro hm ha hf
    rcases hf with hf | hf <;>
      cases hw : s.received_state_est.coordinate_frame <;>
      simp_all [startCallback, setAutoPilotState]

/-- Witness for C6 at a concrete input: Off with an available World-frame
estimate switches to Start. -/
theorem c6_start_request_witness :
    (startCallback 0 sOffW).1.autopilot_state = States.START :=
  (c6_start_request 0 sOffW).2.1 rfl rfl (Or.inl rfl)

/-- Claim C7: the land-request handler is a no-op in
Off/Land/EmergencyLand/CommandFeedthrough/RcManual; otherwise it switches
to Land when an absolute-frame estimate is available, and to EmergencyLand
when the available estimate is not absolute-frame or no estimate is
available. -/
theorem c7_land_request (now : Rat) (s : AutoPilotState) :
    ((s.autopilot_state = States.OFF ∨ s.autopilot_state = States.LAND ∨
      s.autopilot_state = States.EMERGENCY_LAND ∨
      s.autopilot_state = States.COMMAND_FEEDTHROUGH ∨
      s.autopilot_state = States.RC_MANUAL) →
      (landCallback now s).1 = s) ∧
    (¬(s.autopilot_state = States.OFF ∨ s.autopilot_state = States.LAND ∨
       s.autopilot_state = States.EMERGENCY_LAND ∨
       s.autopilot_state = States.COMMAND_FEEDTHROUGH ∨
       s.autopilot_state = States.RC_MANUAL) →
      ((s.state_estimate_available = true →
        (s.received_state_est.coordinate_frame = CoordinateFrame.WORLD ∨
         s.received_state_est.coordinate_frame = CoordinateFrame.OPTITRACK) →
        (landCallback now s).1.autopilot_state = States.LAND) ∧
       (s.state_estimate_available = true →
        s.received_state_est.coordinate_frame ≠ CoordinateFrame.WORLD →
        s.received_state_est.coordinate_frame ≠ CoordinateFrame.OPTITRACK →
        (landCallback now s).1.autopilot_state = States.EMERGENCY_LAND) ∧
       (s.state_estimate_available = false →
        (landCallback now s).1.autopilot_state =
          States.EMERGENCY_LAND))) := by
  constructor
  · intro h
    simp [landCallback, h]
  · intro h
    refine ⟨?_, ?_, ?_⟩
    · intro ha hf
      rcases hf with hf | hf <;>
        simp [landCallback, h, ha, hf, setAutoPilotState]
    · intro ha h1 h2
      simp [landCallback, h, ha, h1, h2, setAutoPilotState]
    · intro ha
      simp [landCallback, h, ha, setAutoPilotState]

/-- Witness for C7 at a concrete input: Hover with an available World-frame
estimate switches to Land. -/
theorem c7_land_request_witness :
    (landCallback 0 sHoverW).1.autopilot_state = States.LAND :=
  ((c7_land_request 0 sHoverW).2 (by decide)).1 rfl (Or.inl rfl)

/-- Claim C10: a start request in mode Off with an available estimate whose
frame is neither World, Optitrack, Vision nor Local leaves the whole state
unchanged and reports no rejection: every log entry emitted is plain info
(no warning or error), unlike the reported rejections of the other refusal
branches. -/
theorem c10_unknown_frame_silent (now : Rat) (s : AutoPilotState)
    (hmode : s.autopilot_state = States.OFF)
    (hav : s.state_estimate_available = true)
    (h1 : s.received_state_est.coordinate_frame ≠ CoordinateFrame.WORLD)
    (h2 : s.received_state_est.coordinate_frame ≠ CoordinateFrame.OPTITRACK)
    (h3 : s.received_state_est.coordinate_frame ≠ CoordinateFrame.VISION)
    (h4 : s.received_state_est.coordinate_frame ≠ CoordinateFrame.LOCAL) :
    (startCallback now s).1 = s ∧
    ∀ e ∈ (startCallback now s).2, e.1 = LogLevel.info := by
  simp [startCallback, hmode, hav, h1, h2, h3, h4]

/-- Witness for C10 at a concrete input. -/
theorem c10_unknown_frame_silent_witness :
    (startCallback 0 sC10W).1 = sC10W ∧
    ∀ e ∈ (startCallback 0 sC10W).2, e.1 = LogLevel.info :=
  c10_unknown_frame_silent 0 sC10W rfl rfl
    (by decide) (by decide) (by decide) (by decide)

/-- Claim C5: on a tick whose estimate fails validity, a mode other than
Off and EmergencyLand ends the tick in EmergencyLand (the tick cannot move
past EmergencyLand in the same step, in particular not to Hover, because
the availability flag was just cleared), while Off and EmergencyLand are
left unchanged by the validity check. -/
theorem c5_invalid_estimate (p : Params) (env : Env) (now : Rat)
    (s : AutoPilotState) (msg predicted : QuadStateEstimate)
    (hv : msg.valid = false) :
    ((s.autopilot_state ≠ States.OFF ∧
      s.autopilot_state ≠ States.EMERGENCY_LAND) →
      (stateEstimateCallback p env now s msg predicted).1.autopilot_state =
        States.EMERGENCY_LAND) ∧
    (s.autopilot_state = States.OFF →
      (stateEstimateCallback p env now s msg predicted).1.autopilot_state =
        States.OFF) ∧
    (s.autopilot_state = States.EMERGENCY_LAND →
      (stateEstimateCallback p env now s msg predicted).1.autopilot_state =
        States.EMERGENCY_LAND) := by
  refine ⟨?_, ?_, ?_⟩
  · intro h
    simp [stateEstimateCallback, hv, h.1, h.2, controlFor, setAutoPilotState,
          publishControlCommand, ControlCommand.mkDefault]
  · intro h
    simp [stateEstimateCallback, hv, h, controlFor, setAutoPilotState,
          publishControlCommand, ControlCommand.mkDefault,
          ControlCommand.zero]
  · intro h
    simp [stateEstimateCallback, hv, h, controlFor, setAutoPilotState,
          publishControlCommand, ControlCommand.mkDefault]

/-- Witness for C5 at a concrete input: an invalid estimate in Hover moves
the autopilot to EmergencyLand on that tick. -/
theorem c5_invalid_estimate_witness :
    (stateEstimateCallback pW envW 0 sHoverW estInvalid
        estInvalid).1.autopilot_state = States.EMERGENCY_LAND :=
  (c5_invalid_estimate pW envW 0 sHoverW estInvalid estInvalid rfl).1
    (by decide)

/-- One Hover tick past the first: the reference state is untouched, the
mode stays Hover and the first-time latch stays false. -/
theorem tick_hover_steady (p : Params) (env : Env) (now : Rat)
    (s : AutoPilotState) (msg predicted : QuadStateEstimate)
    (hm : s.autopilot_state = States.HOVER)
    (hf : s.first_time_in_new_state = false)
    (hv : msg.valid = true) :
    (stateEstimateCallback p env now s msg predicted).1.reference_state =
      s.reference_state ∧
    (stateEstimateCallback p env now s msg predicted).1.autopilot_state =
      States.HOVER ∧
    (stateEstimateCallback p env now s msg
        predicted).1.first_time_in_new_state = false := by
  unfold stateEstimateCallback
  simp only [hv, Bool.true_eq_false, if_false, ite_false]
  simp [controlFor, hm, hover, hf, publishControlCommand]
  split_ifs <;> simp

/-- The first Hover tick: the reference state is rebuilt from the predicted
estimate (position and heading, zero velocity), the mode stays Hover, the
latch is cleared. -/
theorem tick_hover_first (p : Params) (env : Env) (now : Rat)
    (s : AutoPilotState) (msg predicted : QuadStateEstimate)
    (hm : s.autopilot_state = States.HOVER)
    (hf : s.first_time_in_new_state = true)
    (hv : msg.valid = true) :
    (stateEstimateCallback p env now s msg predicted).1.reference_state =
      { TrajectoryPoint.mkDefault with
        position := predicted.position,
        heading := env.quatToHeading predicted.orientation } ∧
    (stateEstimateCallback p env now s msg predicted).1.autopilot_state =
      States.HOVER ∧
    (stateEstimateCallback p env now s msg
        predicted).1.first_time_in_new_state = false := by
  unfold stateEstimateCallback
  simp only [hv, Bool.true_eq_false, if_false, ite_false]
  simp [controlFor, hm, hover, hf, publishControlCommand,
        TrajectoryPoint.mkDefault]
  split_ifs <;> simp

/-- Any sequence of valid-estimate ticks started in Hover past the first
tick leaves the reference state (and the mode and latch) unchanged. -/
theorem runTicks_hover_hold (p : Params) :
    ∀ (inputs : List TickIn) (s : AutoPilotState),
      s.autopilot_state = States.HOVER →
      s.first_time_in_new_state = false →
      (∀ i ∈ inputs, i.msg.valid = true) →
      (runTicks p s inputs).1.reference_state = s.reference_state ∧
      (runTicks p s inputs).1.autopilot_state = States.HOVER ∧
      (runTicks p s inputs).1.first_time_in_new_state = false := by
  intro inputs
  induction inputs with
  | nil => intro s hm hf _; exact ⟨rfl, hm, hf⟩
  | cons i rest ih =>
    intro s hm hf hall
    have h1 := tick_hover_steady p i.env i.now s i.msg i.predicted hm hf
      (hall i (by simp))
    have h2 := ih (stateEstimateCallback p i.env i.now s i.msg i.predicted).1
      h1.2.1 h1.2.2 (fun j hj => hall j (by simp [hj]))
    simp only [runTicks]
    exact ⟨h2.1.trans h1.1, h2.2.1, h2.2.2⟩

/-- Claim C8: in Hover with valid estimates, the first tick sets the
reference position and heading from the estimate fed to the hover step, and
every subsequent Hover tick leaves the whole reference state unchanged
(fixed-point hold). -/
theorem c8_hover_hold (p : Params) (s : AutoPilotState) (i : TickIn)
    (rest : List TickIn)
    (hm : s.autopilot_state = States.HOVER)
    (hf : s.first_time_in_new_state = true)
    (hv : i.msg.valid = true)
    (hrest : ∀ j ∈ rest, j.msg.valid = true) :
    (stateEstimateCallback p i.env i.now s i.msg
        i.predicted).1.reference_state =
      { position := i.predicted.position,
        velocity := Vec3.zero,
        heading := i.env.quatToHeading i.predicted.orientation } ∧
    (runTicks p (stateEstimateCallback p i.env i.now s i.msg i.predicted).1
        rest).1.reference_state =
      (stateEstimateCallback p i.env i.now s i.msg
          i.predicted).1.reference_state := by
  have h1 := tick_hover_first p i.env i.now s i.msg i.predicted hm hf hv
  have h2 := runTicks_hover_hold p rest
    (stateEstimateCallback p i.env i.now s i.msg i.predicted).1
    h1.2.1 h1.2.2 hrest
  refine ⟨?_, h2.1⟩
  rw [h1.1]
  rfl

/-- Witness for C8 at a concrete input: one first tick followed by two
further Hover ticks. -/
theorem c8_hover_hold_witness :
    (stateEstimateCallback pW envW 0 sHoverW estWorld
        estWorld).1.reference_state =
      { position := Vec3.zero, velocity := Vec3.zero, heading := 0 } ∧
    (runTicks pW
        (stateEstimateCallback pW envW 0 sHoverW estWorld estWorld).1
        [tickInAt 1, tickInAt 2]).1.reference_state =
      (stateEstimateCallback pW envW 0 sHoverW estWorld
          estWorld).1.reference_state := by
  have h := c8_hover_hold pW sHoverW (tickInAt 0) [tickInAt 1, tickInAt 2]
    rfl rfl rfl (by intro j hj; fin_cases hj <;> rfl)
  exact h

/-- One Land tick past the first with the ramp-down latch set: the
published thrust is the last issued thrust decreased by its own
proportional share of the time elapsed since latching; when that value is
nonpositive the tick switches to Off and publishes the zeroed disarmed
command (recording thrust 0), otherwise it stays latched in Land and
records the published thrust as the new last issued thrust. -/
theorem tick_land_latched_aux (p : Params) (env : Env) (now : Rat)
    (s : AutoPilotState) (msg predicted : QuadStateEstimate)
    (hm : s.autopilot_state = States.LAND)
    (hf : s.first_time_in_new_state = false)
    (hl : s.time_to_ramp_down = true)
    (hv : msg.valid = true)
    (hrun : ∀ a b, (env.run a b).control_mode ≠ ControlMode.NONE) :
    (s.initial_drop_thrust
       - s.initial_drop_thrust / p.propeller_ramp_down_timeout
         * (now - s.time_started_ramping_down) ≤ 0 →
      (stateEstimateCallback p env now s msg predicted).1.autopilot_state =
        States.OFF ∧
      (stateEstimateCallback p env now s msg
          predicted).1.initial_drop_thrust = 0 ∧
      ∃ c, (stateEstimateCallback p env now s msg predicted).2 = some c ∧
        c.collective_thrust = 0 ∧ c.armed = false ∧
        c.bodyrates = Vec3.zero) ∧
    (0 < s.initial_drop_thrust
       - s.initial_drop_thrust / p.propeller_ramp_down_timeout
         * (now - s.time_started_ramping_down) →
      (stateEstimateCallback p env now s msg predicted).1.autopilot_state =
        States.LAND ∧
      (stateEstimateCallback p env now s msg
          predicted).1.first_time_in_new_state = false ∧
      (stateEstimateCallback p env now s msg predicted).1.time_to_ramp_down
        = true ∧
      (stateEstimateCallback p env now s msg
          predicted).1.time_started_ramping_down =
        s.time_started_ramping_down ∧
      (stateEstimateCallback p env now s msg
          predicted).1.initial_drop_thrust =
        s.initial_drop_thrust
          - s.initial_drop_thrust / p.propeller_ramp_down_timeout
            * (now - s.time_started_ramping_down) ∧
      ∃ c, (stateEstimateCallback p env now s msg predicted).2 = some c ∧
        c.collective_thrust =
          s.initial_drop_thrust
            - s.initial_drop_thrust / p.propeller_ramp_down_timeout
              * (now - s.time_started_ramping_down)) := by
  constructor
  · intro hle
    unfold stateEstimateCallback
    simp only [hv, Bool.true_eq_false, if_false, ite_false]
    simp [controlFor, hm, land, hf, hl, publishControlCommand,
          setAutoPilotState, ControlCommand.zero, ControlCommand.mkDefault,
          timeInCurrentState, hle]
  · intro hlt
    have hle' : ¬ (s.initial_drop_thrust
        - s.initial_drop_thrust / p.propeller_ramp_down_timeout
          * (now - s.time_started_ramping_down) ≤ 0) := not_le.mpr hlt
    unfold stateEstimateCallback
    simp only [hv, Bool.true_eq_false, if_false, ite_false]
    simp [controlFor, hm, land, hf, hl, publishControlCommand,
          setAutoPilotState, ControlCommand.zero, ControlCommand.mkDefault,
          timeInCurrentState, hle', hrun]

/-- One Off tick with a valid estimate: still Off, publishes the zeroed
disarmed command and records thrust 0 as the last issued thrust. -/
theorem tick_off_aux (p : Params) (env : Env) (now : Rat)
    (s : AutoPilotState) (msg predicted : QuadStateEstimate)
    (hm : s.autopilot_state = States.OFF) (hv : msg.valid = true) :
    (stateEstimateCallback p env now s msg predicted).1.autopilot_state =
      States.OFF ∧
    (stateEstimateCallback p env now s msg predicted).1.initial_drop_thrust
      = 0 ∧
    ∃ c, (stateEstimateCallback p env now s msg predicted).2 = some c ∧
      c.collective_thrust = 0 ∧ c.armed = false ∧
      c.bodyrates = Vec3.zero := by
  unfold stateEstimateCallback
  simp only [hv, Bool.true_eq_false, if_false, ite_false]
  simp [controlFor, hm, publishControlCommand, ControlCommand.zero,
        ControlCommand.mkDefault]

/-- Ramp-down invariant induction: from a latched Land state (or an Off
state with recorded thrust 0), a sequence of valid ticks with a publishable
base controller and times at or after the latch time publishes a
non-increasing thrust sequence, every nonpositive published thrust is the
zeroed disarmed command, the run ends in Land or Off, Off persists, and any
nonpositive published thrust forces the final mode to be Off. -/
theorem runTicks_ramp_aux (p : Params)
    (hT : 0 < p.propeller_ramp_down_timeout) (ts0 : Rat) :
    ∀ (inputs : List TickIn) (s : AutoPilotState),
      (∀ i ∈ inputs, i.msg.valid = true ∧ ts0 ≤ i.now ∧
        ∀ a b, (i.env.run a b).control_mode ≠ ControlMode.NONE) →
      ((s.autopilot_state = States.LAND ∧
        s.first_time_in_new_state = false ∧
        s.time_to_ramp_down = true ∧
        s.time_started_ramping_down = ts0 ∧
        0 ≤ s.initial_drop_thrust) ∨
       (s.autopilot_state = States.OFF ∧ s.initial_drop_thrust = 0)) →
      ∃ cmds : List ControlCommand,
        (runTicks p s inputs).2 = cmds.map some ∧
        List.Chain' (fun a b => b.collective_thrust ≤ a.collective_thrust)
          cmds ∧
        (∀ c, cmds.head? = some c →
          c.collective_thrust ≤ s.initial_drop_thrust) ∧
        (∀ c ∈ cmds, c.collective_thrust ≤ 0 →
          c.collective_thrust = 0 ∧ c.armed = false ∧
          c.bodyrates = Vec3.zero) ∧
        ((runTicks p s inputs).1.autopilot_state = States.LAND ∨
         (runTicks p s inputs).1.autopilot_state = States.OFF) ∧
        (s.autopilot_state = States.OFF →
          (runTicks p s inputs).1.autopilot_state = States.OFF) ∧
        ((∃ c ∈ cmds, c.collective_thrust ≤ 0) →
          (runTicks p s inputs).1.autopilot_state = States.OFF) := by
  intro inputs
  induction inputs with
  | nil =>
    intro s _ hinv
    refine ⟨[], rfl, List.chain'_nil, ?_, ?_, ?_, ?_, ?_⟩
    · intro c hc; cases hc
    · intro c hc; cases hc
    · rcases hinv with h | h
      · exact Or.inl h.1
      · exact Or.inr h.1
    · intro h; exact h
    · rintro ⟨c, hc, _⟩; cases hc
  | cons i rest ih =>
    intro s hall hinv
    have hi := hall i (by simp)
    have hrest : ∀ j ∈ rest, j.msg.valid = true ∧ ts0 ≤ j.now ∧
        ∀ a b, (j.env.run a b).control_mode ≠ ControlMode.NONE :=
      fun j hj => hall j (by simp [hj])
    rcases hinv with hland | hoff
    · -- latched Land state
      obtain ⟨hm, hf, hl, hts, hd⟩ := hland
      have haux := tick_land_latched_aux p i.env i.now s i.msg i.predicted
        hm hf hl hi.1 hi.2.2
      set r := s.initial_drop_thrust
        - s.initial_drop_thrust / p.propeller_ramp_down_timeout
          * (i.now - s.time_started_ramping_down) with hr
      have hrled : r ≤ s.initial_drop_thrust := by
        rw [hr]
        have h1 : 0 ≤ s.initial_drop_thrust / p.propeller_ramp_down_timeout
            * (i.now - s.time_started_ramping_down) := by
          apply mul_nonneg
          · exact div_nonneg hd (le_of_lt hT)
          · rw [hts]; linarith [hi.2.1]
        linarith
      rcases le_or_lt r 0 with hle | hlt
      · -- thrust reaches zero this tick: switch to Off, publish zero
        obtain ⟨hm1, hd1, c0, hc0, hc0t, hc0a, hc0b⟩ := haux.1 hle
        obtain ⟨cmds, e1, e2, e3, e4, e5, e6, e7⟩ := ih
          (stateEstimateCallback p i.env i.now s i.msg i.predicted).1 hrest
          (Or.inr ⟨hm1, hd1⟩)
        refine ⟨c0 :: cmds, ?_, ?_, ?_, ?_, ?_, ?_, ?_⟩
        · simp only [runTicks, List.map_cons]
          rw [hc0, e1]
        · rw [List.chain'_cons']
          refine ⟨?_, e2⟩
          intro b hb
          have := e3 b hb
          rw [hd1] at this
          rw [hc0t]
          exact this
        · intro c hc
          simp only [List.head?_cons, Option.some.injEq] at hc
          rw [← hc, hc0t]; exact hd
        · intro c hc hcle
          rcases List.mem_cons.mp hc with h | h
          · rw [h]; exact ⟨hc0t, hc0a, hc0b⟩
          · exact e4 c h hcle
        · simp only [runTicks]; exact e5
        · intro _; simp only [runTicks]; exact e6 hm1
        · intro _; simp only [runTicks]; exact e6 hm1
      · -- thrust still positive: stay latched in Land
        obtain ⟨hm1, hf1, hl1, hts1, hd1, c0, hc0, hc0t⟩ := haux.2 hlt
        obtain ⟨cmds, e1, e2, e3, e4, e5, e6, e7⟩ := ih
          (stateEstimateCallback p i.env i.now s i.msg i.predicted).1 hrest
          (Or.inl ⟨hm1, hf1, hl1, by rw [hts1, hts], by rw [hd1]; linarith⟩)
        refine ⟨c0 :: cmds, ?_, ?_, ?_, ?_, ?_, ?_, ?_⟩
        · simp only [runTicks, List.map_cons]
          rw [hc0, e1]
        · rw [List.chain'_cons']
          refine ⟨?_, e2⟩
          intro b hb
          have := e3 b hb
          rw [hd1] at this
          rw [hc0t]
          exact this
        · intro c hc
          simp only [List.head?_cons, Option.some.injEq] at hc
          rw [← hc, hc0t]; exact hrled
        · intro c hc hcle
          rcases List.mem_cons.mp hc with h | h
          · rw [h, hc0t] at hcle; linarith
          · exact e4 c h hcle
        · simp only [runTicks]; exact e5
        · intro hoff'; rw [hm] at hoff'; cases hoff'
        · rintro ⟨c, hc, hcle⟩
          rcases List.mem_cons.mp hc with h | h
          · rw [h, hc0t] at hcle; linarith
          · simp only [runTicks]; exact e7 ⟨c, h, hcle⟩
    · -- Off state: stays Off, publishes zeros
      obtain ⟨hm, hd0⟩ := hoff
      have haux := tick_off_aux p i.env i.now s i.msg i.predicted hm hi.1
      obtain ⟨hm1, hd1, c0, hc0, hc0t, hc0a, hc0b⟩ := haux
      obtain ⟨cmds, e1, e2, e3, e4, e5, e6, e7⟩ := ih
        (stateEstimateCallback p i.env i.now s i.msg i.predicted).1 hrest
        (Or.inr ⟨hm1, hd1⟩)
      refine ⟨c0 :: cmds, ?_, ?_, ?_, ?_, ?_, ?_, ?_⟩
      · simp only [runTicks, List.map_cons]
        rw [hc0, e1]
      · rw [List.chain'_cons']
        refine ⟨?_, e2⟩
        intro b hb
        have := e3 b hb
        rw [hd1] at this
        rw [hc0t]
        exact this
      · intro c hc
        simp only [List.head?_cons, Option.some.injEq] at hc
        rw [← hc, hc0t, hd0]
      · intro c hc hcle
        rcases List.mem_cons.mp hc with h | h
        · rw [h]; exact ⟨hc0t, hc0a, hc0b⟩
        · exact e4 c h hcle
      · simp only [runTicks]; exact e5
      · intro _; simp only [runTicks]; exact e6 hm1
      · intro _; simp only [runTicks]; exact e6 hm1

/-- Claim C3: after the ramp-down latch is set in Land, over any sequence
of ticks (valid estimates, publishable base-controller commands, times at
or after the latch time) the published collective thrust is non-increasing
tick over tick; a tick whose thrust is nonpositive emits the zeroed
disarmed command, and once that happens the run has switched to Off. -/
theorem c3_ramp_monotone (p : Params) (s : AutoPilotState)
    (inputs : List TickIn)
    (hT : 0 < p.propeller_ramp_down_timeout)
    (hm : s.autopilot_state = States.LAND)
    (hf : s.first_time_in_new_state = false)
    (hl : s.time_to_ramp_down = true)
    (hd : 0 ≤ s.initial_drop_thrust)
    (hin : ∀ i ∈ inputs, i.msg.valid = true ∧
      s.time_started_ramping_down ≤ i.now ∧
      ∀ a b, (i.env.run a b).control_mode ≠ ControlMode.NONE) :
    ∃ cmds : List ControlCommand,
      (runTicks p s inputs).2 = cmds.map some ∧
      List.Chain' (fun a b => b.collective_thrust ≤ a.collective_thrust)
        cmds ∧
      (∀ c ∈ cmds, c.collective_thrust ≤ 0 →
        c.collective_thrust = 0 ∧ c.armed = false ∧
        c.bodyrates = Vec3.zero) ∧
      ((∃ c ∈ cmds, c.collective_thrust ≤ 0) →
        (runTicks p s inputs).1.autopilot_state = States.OFF) := by
  obtain ⟨cmds, e1, e2, e3, e4, e5, e6, e7⟩ :=
    runTicks_ramp_aux p hT s.time_started_ramping_down inputs s hin
      (Or.inl ⟨hm, hf, hl, rfl, hd⟩)
  exact ⟨cmds, e1, e2, e4, e7⟩

/-- Witness for C3 at a concrete input: two latched Land ticks, the second
of which drives the thrust nonpositive. -/
theorem c3_ramp_monotone_witness :
    ∃ cmds : List ControlCommand,
      (runTicks pW sLandLatchedW [tickInAt (1/2), tickInAt 2]).2 =
        cmds.map some ∧
      List.Chain' (fun a b => b.collective_thrust ≤ a.collective_thrust)
        cmds ∧
      (∀ c ∈ cmds, c.collective_thrust ≤ 0 →
        c.collective_thrust = 0 ∧ c.armed = false ∧
        c.bodyrates = Vec3.zero) ∧
      ((∃ c ∈ cmds, c.collective_thrust ≤ 0) →
        (runTicks pW sLandLatchedW
          [tickInAt (1/2), tickInAt 2]).1.autopilot_state = States.OFF) :=
  c3_ramp_monotone pW sLandLatchedW [tickInAt (1/2), tickInAt 2]
    (by norm_num [pW]) rfl rfl rfl
    (by norm_num [sLandLatchedW, sLandW, sOffW])
    (by intro i hi
        fin_cases hi <;>
          exact ⟨rfl, by norm_num [tickInAt, sLandLatchedW, sLandW, sOffW],
                 fun a b => by simp [tickInAt, envW]⟩)

/-- Claim C4, counterexample: in `sLandLatchedW` the ramp was latched at
time 0 with last issued thrust 1, and the ramp-down timeout of `pW` is 1.
Two Land ticks at times 1/2 and 3/4 publish thrusts 1/2 and then 1/8,
whereas a single linear ramp from the latch-time thrust predicts
1 * (1 - (3/4)/1) = 1/4 at the second tick: each tick ramps from the
thrust published on the previous tick, because every publish overwrites the
recorded drop thrust. -/
theorem c4_counterexample :
    ∃ c1 c2,
      (runTicks pW sLandLatchedW [tickInAt (1/2), tickInAt (3/4)]).2 =
        [some c1, some c2] ∧
      c1.collective_thrust = 1/2 ∧
      c2.collective_thrust = 1/8 ∧
      sLandLatchedW.initial_drop_thrust
        * (1 - (3/4) / pW.propeller_ramp_down_timeout) = 1/4 ∧
      c2.collective_thrust ≠
        sLandLatchedW.initial_drop_thrust
          * (1 - (3/4) / pW.propeller_ramp_down_timeout) := by
  have hrun : ∀ a b, (envW.run a b).control_mode ≠ ControlMode.NONE :=
    fun a b => by simp [envW]
  have h1 := (tick_land_latched_aux pW envW (1/2) sLandLatchedW estWorld
    estWorld rfl rfl rfl rfl hrun).2
    (by norm_num [sLandLatchedW, sLandW, sOffW, pW])
  obtain ⟨m1, f1, l1, ts1, d1, c1, hc1, ht1⟩ := h1
  have hts0 : sLandLatchedW.time_started_ramping_down = 0 := rfl
  have hd0 : sLandLatchedW.initial_drop_thrust = 1 := rfl
  have hT1 : pW.propeller_ramp_down_timeout = 1 := rfl
  have ht1' : c1.collective_thrust = 1/2 := by
    rw [ht1, hts0, hd0, hT1]; norm_num
  have h2 := (tick_land_latched_aux pW envW (3/4)
    (stateEstimateCallback pW envW (1/2) sLandLatchedW estWorld
      estWorld).1 estWorld estWorld m1 f1 l1 rfl hrun).2
    (by rw [d1, ts1, hts0, hd0, hT1]; norm_num)
  obtain ⟨_, _, _, _, _, c2, hc2, ht2⟩ := h2
  have ht2' : c2.collective_thrust = 1/8 := by
    rw [ht2, d1, ts1, hts0, hd0, hT1]; norm_num
  refine ⟨c1, c2, ?_, ht1', ht2', ?_, ?_⟩
  · show (stateEstimateCallback pW envW (1/2) sLandLatchedW estWorld
        estWorld).2 ::
      (stateEstimateCallback pW envW (3/4)
        (stateEstimateCallback pW envW (1/2) sLandLatchedW estWorld
          estWorld).1 estWorld estWorld).2 :: [] = [some c1, some c2]
    rw [hc1, hc2]
  · rw [hd0, hT1]; norm_num
  · rw [ht2', hd0, hT1]; norm_num

/-- Claim C4, amended: while the ramp-down latch is set, each Land tick
replaces the base controller thrust with d - d/T * (t - latch_time), where
T is propeller_ramp_down_timeout and d is the most recently issued thrust
(re-recorded at every publish, so it equals the latch-time thrust only on
the first post-latch tick); when the result is nonpositive the tick forces
the mode to Off and emits a fully zeroed, disarmed command. -/
theorem c4_amended (p : Params) (env : Env) (now : Rat)
    (s : AutoPilotState) (msg predicted : QuadStateEstimate)
    (hm : s.autopilot_state = States.LAND)
    (hf : s.first_time_in_new_state = false)
    (hl : s.time_to_ramp_down = true)
    (hv : msg.valid = true)
    (hrun : ∀ a b, (env.run a b).control_mode ≠ ControlMode.NONE) :
    (s.initial_drop_thrust
       - s.initial_drop_thrust / p.propeller_ramp_down_timeout
         * (now - s.time_started_ramping_down) ≤ 0 →
      (stateEstimateCallback p env now s msg predicted).1.autopilot_state =
        States.OFF ∧
      ∃ c, (stateEstimateCallback p env now s msg predicted).2 = some c ∧
        c.collective_thrust = 0 ∧ c.armed = false ∧
        c.bodyrates = Vec3.zero) ∧
    (0 < s.initial_drop_thrust
       - s.initial_drop_thrust / p.propeller_ramp_down_timeout
         * (now - s.time_started_ramping_down) →
      (stateEstimateCallback p env now s msg predicted).1.autopilot_state =
        States.LAND ∧
      (stateEstimateCallback p env now s msg
          predicted).1.initial_drop_thrust =
        s.initial_drop_thrust
          - s.initial_drop_thrust / p.propeller_ramp_down_timeout
            * (now - s.time_started_ramping_down) ∧
      ∃ c, (stateEstimateCallback p env now s msg predicted).2 = some c ∧
        c.collective_thrust =
          s.initial_drop_thrust
            - s.initial_drop_thrust / p.propeller_ramp_down_timeout
              * (now - s.time_started_ramping_down)) := by
  have h := tick_land_latched_aux p env now s msg predicted hm hf hl hv hrun
  constructor
  · intro hle
    obtain ⟨h1, _, c, hc, hct, hca, hcb⟩ := h.1 hle
    exact ⟨h1, c, hc, hct, hca, hcb⟩
  · intro hlt
    obtain ⟨h1, _, _, _, h5, c, hc, hct⟩ := h.2 hlt
    exact ⟨h1, h5, c, hc, hct⟩

/-- Witness for the amended C4 at a concrete input: one latched Land tick
at time 1/2 with last issued thrust 1 publishes thrust 1/2 and stays in
Land. -/
theorem c4_amended_witness :
    (stateEstimateCallback pW envW (1/2) sLandLatchedW estWorld
        estWorld).1.autopilot_state = States.LAND ∧
    ∃ c, (stateEstimateCallback pW envW (1/2) sLandLatchedW estWorld
        estWorld).2 = some c ∧ c.collective_thrust = 1/2 := by
  have h := (c4_amended pW envW (1/2) sLandLatchedW estWorld estWorld rfl rfl
    rfl rfl (fun a b => by simp [envW])).2
    (by norm_num [sLandLatchedW, sLandW, sOffW, pW])
  obtain ⟨h1, _, c, hc, hct⟩ := h
  refine ⟨h1, c, hc, ?_⟩
  rw [hct]
  norm_num [sLandLatchedW, sLandW, sOffW, pW]

/-- Lemma: `setAutoPilotState` keeps the pre-manual memory at Off (it either
preserves it or overwrites it with Off). -/
theorem before_setAPS (now : Rat) (s : AutoPilotState) (ns : States)
    (h : s.state_before_rc_manual_flight = States.OFF) :
    (setAutoPilotState now s ns).state_before_rc_manual_flight =
      States.OFF := by
  simp only [setAutoPilotState]
  split_ifs <;> simp [h]

/-- The start step keeps the pre-manual memory at Off. -/
theorem before_start (p : Params) (env : Env) (now : Rat)
    (s : AutoPilotState) (est : QuadStateEstimate)
    (h : s.state_before_rc_manual_flight = States.OFF) :
    (start p env now s est).1.state_before_rc_manual_flight =
      States.OFF := by
  unfold start
  dsimp only
  split_ifs <;> simp [setAutoPilotState, h]

/-- The hover step keeps the pre-manual memory at Off. -/
theorem before_hover (env : Env) (s : AutoPilotState)
    (est : QuadStateEstimate)
    (h : s.state_before_rc_manual_flight = States.OFF) :
    (hover env s est).1.state_before_rc_manual_flight = States.OFF := by
  unfold hover
  dsimp only
  split_ifs <;> simp [h]

/-- The land step keeps the pre-manual memory at Off. -/
theorem before_land (p : Params) (env : Env) (now : Rat)
    (s : AutoPilotState) (est : QuadStateEstimate)
    (h : s.state_before_rc_manual_flight = States.OFF) :
    (land p env now s est).1.state_before_rc_manual_flight =
      States.OFF := by
  unfold land
  dsimp only
  split_ifs <;> simp [setAutoPilotState, h]

/-- The mode dispatch keeps the pre-manual memory at Off. -/
theorem before_controlFor (p : Params) (env : Env) (now : Rat)
    (s2 : AutoPilotState) (predicted : QuadStateEstimate)
    (h : s2.state_before_rc_manual_flight = States.OFF) :
    (controlFor p env now s2 predicted).1.state_before_rc_manual_flight =
      States.OFF := by
  unfold controlFor
  cases hst : s2.autopilot_state
  case OFF => exact h
  case START => exact before_start p env now s2 predicted h
  case HOVER => exact before_hover env s2 predicted h
  case LAND => exact before_land p env now s2 predicted h
  case EMERGENCY_LAND =>
    dsimp only
    split_ifs
    · exact before_setAPS now s2 States.HOVER h
    · exact h
  case BREAKING => exact h
  case GO_TO_POSE => exact h
  case VELOCITY_CONTROL => exact h
  case REFERENCE_CONTROL => exact h
  case TRAJECTORY_CONTROL => exact h
  case COMMAND_FEEDTHROUGH => exact h
  case RC_MANUAL => exact h

/-- Publishing keeps the pre-manual memory at Off. -/
theorem before_publish (s : AutoPilotState) (cmd : ControlCommand)
    (h : s.state_before_rc_manual_flight = States.OFF) :
    (publishControlCommand s cmd).1.state_before_rc_manual_flight =
      States.OFF := by
  unfold publishControlCommand
  split_ifs <;> simp [h]

/-- The periodic tick keeps the pre-manual memory at Off. -/
theorem before_tick (p : Params) (env : Env) (now : Rat)
    (s : AutoPilotState) (msg predicted : QuadStateEstimate)
    (h : s.state_before_rc_manual_flight = States.OFF) :
    (stateEstimateCallback p env now s msg
        predicted).1.state_before_rc_manual_flight = States.OFF := by
  unfold stateEstimateCallback
  dsimp only
  split_ifs <;>
    first
    | exact before_publish _ _
        (before_controlFor _ _ _ _ _ (by simp [setAutoPilotState, h]))
    | exact before_controlFor _ _ _ _ _ (by simp [setAutoPilotState, h])

/-- The low-level feedback handler never writes the pre-manual memory. -/
theorem before_feedback (s : AutoPilotState) (b : Bool)
    (h : s.state_before_rc_manual_flight = States.OFF) :
    (lowLevelFeedbackCallback s b).state_before_rc_manual_flight =
      States.OFF := by
  unfold lowLevelFeedbackCallback
  dsimp only
  split_ifs <;> exact h

/-- The external-command handler never writes the pre-manual memory. -/
theorem before_extCommand (s : AutoPilotState) (msg : ControlCommand)
    (h : s.state_before_rc_manual_flight = States.OFF) :
    (controlCommandInputCallback s
        msg).1.state_before_rc_manual_flight = States.OFF := by
  unfold controlCommandInputCallback
  dsimp only
  split_ifs <;> exact h

/-- The start-request handler keeps the pre-manual memory at Off. -/
theorem before_startCallback (now : Rat) (s : AutoPilotState)
    (h : s.state_before_rc_manual_flight = States.OFF) :
    (startCallback now s).1.state_before_rc_manual_flight =
      States.OFF := by
  unfold startCallback
  dsimp only
  split_ifs <;> simp [setAutoPilotState, h]

/-- The land-request handler keeps the pre-manual memory at Off. -/
theorem before_landCallback (now : Rat) (s : AutoPilotState)
    (h : s.state_before_rc_manual_flight = States.OFF) :
    (landCallback now s).1.state_before_rc_manual_flight = States.OFF := by
  unfold landCallback
  dsimp only
  split_ifs <;> simp [setAutoPilotState, h]

/-- The off-request handler keeps the pre-manual memory at Off. -/
theorem before_offCallback (now : Rat) (s : AutoPilotState)
    (h : s.state_before_rc_manual_flight = States.OFF) :
    (offCallback now s).state_before_rc_manual_flight = States.OFF := by
  unfold offCallback
  dsimp only
  split_ifs <;> simp [setAutoPilotState, h]

/-- Claim C9: in every reachable state the remembered
mode-before-manual-flight equals Off (initialized Off, every write stores
Off), so on the falling edge of the low-level feedback handler from
RcManual the mode always becomes Off and the Braking branch is never
taken. -/
theorem c9_before_manual_always_off (p : Params) (s : AutoPilotState)
    (h : Reachable p s) :
    s.state_before_rc_manual_flight = States.OFF ∧
    (s.autopilot_state = States.RC_MANUAL →
      (lowLevelFeedbackCallback s false).autopilot_state = States.OFF ∧
      (lowLevelFeedbackCallback s false).autopilot_state ≠
        States.BREAKING) := by
  have hb : s.state_before_rc_manual_flight = States.OFF := by
    induction h with
    | init s h1 h2 h3 h4 => exact h2
    | tick s env now msg predicted hr ih =>
      exact before_tick p env now s msg predicted ih
    | feedback s b hr ih => exact before_feedback s b ih
    | extCommand s msg hr ih => exact before_extCommand s msg ih
    | startReq s now hr ih => exact before_startCallback now s ih
    | landReq s now hr ih => exact before_landCallback now s ih
    | offReq s now hr ih => exact before_offCallback now s ih
  refine ⟨hb, ?_⟩
  intro hm
  unfold lowLevelFeedbackCallback
  simp [hm, hb]

/-- Witness for C9 at a concrete input: from the constructor state, enter
RcManual through the feedback handler, then hand authority back; the mode
becomes Off. -/
theorem c9_before_manual_always_off_witness :
    (lowLevelFeedbackCallback (lowLevelFeedbackCallback sOffW true)
        false).autopilot_state = States.OFF :=
  ((c9_before_manual_always_off pW (lowLevelFeedbackCallback sOffW true)
      (Reachable.feedback sOffW true
        (Reachable.init sOffW rfl rfl rfl rfl))).2 (by decide)).1

end Autopilot
